import Mathlib

/-!
Verification of the gesture-controlled Angry Balls game core
(`src/main.py`) against its natural-language specification.

The Python code is shallowly embedded: numeric values are modelled over ℚ
(the spec and code constants 0.3, 0.995, 0.15, 0.8, … are taken at their
exact decimal values), Python `int()` truncation is `ratTrunc`, and Python
float floor-division `//` is `pyFloorDiv`.  Square roots appear in the
source only on the left of comparisons of the form `sqrt d < c` or
`sqrt d < c * sqrt e` with `c ≥ 0`; these are embedded by the equivalent
squared comparisons (`0 < c ∧ d < c^2`, resp. `d < c^2 * e`), which avoids
irrational values while preserving the exact branch behaviour.
-/

namespace AngryBalls

/-- Python `int()` applied to a float: truncation toward zero. -/
def ratTrunc (q : ℚ) : ℤ := if 0 ≤ q then ⌊q⌋ else ⌈q⌉

/-- Python float floor-division `a // b`. -/
def pyFloorDiv (a b : ℚ) : ℚ := ((⌊a / b⌋ : ℤ) : ℚ)

/-- Squared Euclidean distance between two points. -/
def distSq (x1 y1 x2 y2 : ℚ) : ℚ := (x1 - x2) ^ 2 + (y1 - y2) ^ 2

/-- One 2-D hand landmark (the z component of the source is never read). -/
structure Pt where
  x : ℚ
  y : ℚ
deriving DecidableEq

/-- A hand-landmark snapshot: index `i` is `hand_landmarks.landmark[i]`. -/
def Hand := Nat → Pt

/-- `SimpleBird` from `src/main.py`. -/
structure SimpleBird where
  x : ℚ
  y : ℚ
  start_x : ℚ
  start_y : ℚ
  radius : ℚ
  vel_x : ℚ
  vel_y : ℚ
  is_flying : Bool
  trail : List (ℤ × ℤ)
deriving DecidableEq

/-- `SimpleBird.__init__(x, y)`. -/
def mkBird (x y : ℚ) : SimpleBird :=
  { x := x, y := y, start_x := x, start_y := y, radius := 15,
    vel_x := 0, vel_y := 0, is_flying := false, trail := [] }

/-- `SimpleBird.reset`. -/
def SimpleBird.reset (b : SimpleBird) : SimpleBird :=
  { b with x := b.start_x, y := b.start_y, vel_x := 0, vel_y := 0,
           is_flying := false, trail := [] }

/-- `SimpleBird.update`: gravity, then drag, then integration, then
trail recording guarded by `len(self.trail) < 20`. -/
def SimpleBird.update (b : SimpleBird) : SimpleBird :=
  if b.is_flying then
    let vel_y := b.vel_y + 3/10
    let vel_x := b.vel_x * (995/1000)
    let x := b.x + vel_x
    let y := b.y + vel_y
    let trail := if b.trail.length < 20 then b.trail ++ [(ratTrunc x, ratTrunc y)] else b.trail
    { b with vel_x := vel_x, vel_y := vel_y, x := x, y := y, trail := trail }
  else b

/-- `SimpleBird.launch`. -/
def SimpleBird.launch (b : SimpleBird) (vel_x vel_y : ℚ) : SimpleBird :=
  { b with vel_x := vel_x, vel_y := vel_y, is_flying := true,
           trail := [(ratTrunc b.x, ratTrunc b.y)] }

/-- `SimpleTarget` from `src/main.py`. -/
structure SimpleTarget where
  x : ℚ
  y : ℚ
  radius : ℚ
  is_destroyed : Bool
deriving DecidableEq

/-- `SimpleTarget.__init__(x, y)` with the default radius 20. -/
def mkTarget (x y : ℚ) : SimpleTarget :=
  { x := x, y := y, radius := 20, is_destroyed := false }

/-- `SimpleTarget.check_collision`: returns the updated target and the
boolean result.  `sqrt d < r` is embedded as `0 < r ∧ d < r^2`. -/
def SimpleTarget.check_collision (t : SimpleTarget) (b : SimpleBird) :
    SimpleTarget × Bool :=
  if t.is_destroyed then (t, false)
  else if 0 < t.radius + b.radius ∧
          distSq t.x t.y b.x b.y < (t.radius + b.radius) ^ 2 then
    ({ t with is_destroyed := true }, true)
  else (t, false)

/-- The `transition_direction` field ('left' or 'right'). -/
inductive TransitionDirection where
  | left
  | right
deriving DecidableEq

/-- The `reset_button` dictionary of `SimpleGame.__init__`. -/
structure ResetButton where
  x : ℚ
  y : ℚ
  width : ℚ
  height : ℚ
  clicked : Bool
  hover : Bool
  progress : ℚ
  max_progress : ℚ
  active : Bool
  detection_padding : ℚ
  fallback_activated : Bool
  has_triggered : Bool
  was_in_area : Bool
  trigger_cooldown : ℚ
deriving DecidableEq

/-- The initial `reset_button` dictionary (built from the frame height). -/
def mkResetButton (height : ℚ) : ResetButton :=
  { x := 10, y := pyFloorDiv height 2 + 130, width := 110, height := 40,
    clicked := false, hover := false, progress := 0, max_progress := 60,
    active := false, detection_padding := 20, fallback_activated := false,
    has_triggered := false, was_in_area := false, trigger_cooldown := 30 }

/-- `SimpleGame` from `src/main.py` (the rendering-only field
`old_game_surface` is omitted; it is never read). -/
structure SimpleGame where
  width : ℚ
  height : ℚ
  pulling : Bool
  pull_x : ℚ
  pull_y : ℚ
  score : ℤ
  game_won : Bool
  is_paused : Bool
  fist_detected : Bool
  last_fist_state : Bool
  pause_message_timer : ℤ
  game_area_width : ℚ
  game_area_height : ℚ
  game_offset_x : ℚ
  game_offset_y : ℚ
  current_level : ℕ
  max_level : ℕ
  is_transitioning : Bool
  transition_progress : ℤ
  transition_direction : TransitionDirection
  bird : SimpleBird
  targets : List SimpleTarget
  reset_button : ResetButton
deriving DecidableEq

/-- The per-level target table of `SimpleGame.init_level`. -/
def levelTargets (lvl : ℕ) (ox oy gw gh : ℚ) : List SimpleTarget :=
  if lvl = 1 then
    [mkTarget (ox + gw - 100) (oy + gh - 100),
     mkTarget (ox + gw - 150) (oy + gh - 150),
     mkTarget (ox + gw - 200) (oy + gh - 100)]
  else if lvl = 2 then
    [mkTarget (ox + gw - 80) (oy + gh - 80),
     mkTarget (ox + gw - 120) (oy + gh - 120),
     mkTarget (ox + gw - 160) (oy + gh - 160),
     mkTarget (ox + gw - 200) (oy + gh - 80)]
  else if lvl = 3 then
    [mkTarget (ox + gw - 70) (oy + gh - 70),
     mkTarget (ox + gw - 110) (oy + gh - 110),
     mkTarget (ox + gw - 150) (oy + gh - 150),
     mkTarget (ox + gw - 190) (oy + gh - 110),
     mkTarget (ox + gw - 230) (oy + gh - 70)]
  else if lvl = 4 then
    [mkTarget (ox + gw - 100) (oy + gh - 60),
     mkTarget (ox + gw - 140) (oy + gh - 60),
     mkTarget (ox + gw - 180) (oy + gh - 60),
     mkTarget (ox + gw - 120) (oy + gh - 100),
     mkTarget (ox + gw - 160) (oy + gh - 100),
     mkTarget (ox + gw - 140) (oy + gh - 140)]
  else
    [mkTarget (ox + gw - 80) (oy + gh - 60),
     mkTarget (ox + gw - 120) (oy + gh - 100),
     mkTarget (ox + gw - 160) (oy + gh - 140),
     mkTarget (ox + gw - 200) (oy + gh - 100),
     mkTarget (ox + gw - 240) (oy + gh - 60),
     mkTarget (ox + gw - 130) (oy + gh - 180),
     mkTarget (ox + gw - 170) (oy + gh - 180)]

/-- `SimpleGame.init_level`. -/
def SimpleGame.init_level (g : SimpleGame) : SimpleGame :=
  { g with
    bird := mkBird (g.game_offset_x + 100) (g.game_offset_y + g.game_area_height - 150),
    targets := levelTargets g.current_level g.game_offset_x g.game_offset_y
                 g.game_area_width g.game_area_height,
    pulling := false }

/-- `SimpleGame.__init__(width, height)`. -/
def mkGame (width height : ℚ) : SimpleGame :=
  let gaw := min (width * (8/10)) 800
  let gah := min (height * (8/10)) 600
  SimpleGame.init_level
    { width := width, height := height, pulling := false, pull_x := 0, pull_y := 0,
      score := 0, game_won := false, is_paused := false, fist_detected := false,
      last_fist_state := false, pause_message_timer := 0,
      game_area_width := gaw, game_area_height := gah,
      game_offset_x := pyFloorDiv (width - gaw) 2,
      game_offset_y := pyFloorDiv (height - gah) 2,
      current_level := 1, max_level := 5,
      is_transitioning := false, transition_progress := 0,
      transition_direction := TransitionDirection.left,
      bird := mkBird 0 0, targets := [],
      reset_button := mkResetButton height }

/-- The collision loop of `SimpleGame.update`: folds
`target.check_collision(bird)` over the target list, collecting the updated
targets and the total score increment (100 per destroyed-this-tick target). -/
def collideAll (b : SimpleBird) : List SimpleTarget → List SimpleTarget × ℤ
  | [] => ([], 0)
  | t :: ts =>
    let r := t.check_collision b
    let rest := collideAll b ts
    (r.1 :: rest.1, (if r.2 then 100 else 0) + rest.2)

/-- `SimpleGame.start_transition`. -/
def SimpleGame.start_transition (g : SimpleGame) (d : TransitionDirection) : SimpleGame :=
  { g with is_transitioning := true, transition_progress := 0,
           transition_direction := d }

/-- `SimpleGame.next_level`. -/
def SimpleGame.next_level (g : SimpleGame) : SimpleGame :=
  if g.is_transitioning = false ∧ g.current_level < g.max_level then
    let g' := g.start_transition TransitionDirection.left
    { g' with current_level := g'.current_level + 1 }
  else g

/-- `SimpleGame.update_transition`: returns the new state and the
completion flag the Python method returns. -/
def SimpleGame.update_transition (g : SimpleGame) : SimpleGame × Bool :=
  if g.is_transitioning then
    let p := g.transition_progress + 3
    if 100 ≤ p then
      (SimpleGame.init_level { g with is_transitioning := false, transition_progress := 0 },
       true)
    else ({ g with transition_progress := p }, false)
  else (g, false)

/-- `SimpleGame.update`. -/
def SimpleGame.update (g : SimpleGame) : SimpleGame :=
  if g.is_transitioning then (g.update_transition).1
  else
    let bird := g.bird.update
    let cs := collideAll bird g.targets
    let bird2 :=
      if bird.x > g.game_offset_x + g.game_area_width ∨
         bird.y > g.game_offset_y + g.game_area_height ∨
         bird.x < g.game_offset_x then
        (if bird.is_flying then bird.reset else bird)
      else bird
    { g with bird := bird2, targets := cs.1, score := g.score + cs.2,
             game_won := cs.1.all (fun t => t.is_destroyed) }

/-- `SimpleGame.start_pull`: `sqrt d < 40` is embedded as `d < 1600`. -/
def SimpleGame.start_pull (g : SimpleGame) (x y : ℚ) : SimpleGame :=
  if g.bird.is_flying = false ∧ g.game_won = false ∧
     distSq x y g.bird.x g.bird.y < 1600 then
    { g with pulling := true }
  else g

/-- Rational stand-in for `math.sqrt`, exact on perfect squares of
rationals.  It is used only in the clamping branch of `update_pull`; no
claim in this development depends on its value elsewhere. -/
def ratSqrt (q : ℚ) : ℚ :=
  if q ≤ 0 then 0 else (Nat.sqrt q.num.toNat : ℚ) / (Nat.sqrt q.den : ℚ)

/-- `SimpleGame.update_pull`: the guard `distance > 100` is embedded as
`d > 10000` on the squared distance. -/
def SimpleGame.update_pull (g : SimpleGame) (x y : ℚ) : SimpleGame :=
  if g.pulling then
    let d2 := distSq x y g.bird.start_x g.bird.start_y
    let p :=
      if d2 > 10000 then
        let dist := ratSqrt d2
        (g.bird.start_x + (x - g.bird.start_x) / dist * 100,
         g.bird.start_y + (y - g.bird.start_y) / dist * 100)
      else (x, y)
    { g with pull_x := p.1, pull_y := p.2,
             bird := { g.bird with x := p.1, y := p.2 } }
  else g

/-- `SimpleGame.release`. -/
def SimpleGame.release (g : SimpleGame) : SimpleGame :=
  if g.pulling then
    let vel_x := (g.bird.start_x - g.bird.x) * (15/100)
    let vel_y := (g.bird.start_y - g.bird.y) * (15/100)
    { g with bird := g.bird.launch vel_x vel_y, pulling := false }
  else g

/-- `SimpleGame.reset_game`. -/
def SimpleGame.reset_game (g : SimpleGame) : SimpleGame :=
  { g with bird := g.bird.reset,
           targets := g.targets.map (fun t => { t with is_destroyed := false }),
           score := 0, game_won := false, pulling := false }

/-- The expanded detection rectangle test of `check_button_hover`
(`expanded_x1 <= x <= expanded_x2 and expanded_y1 <= y <= expanded_y2`). -/
def insideExpanded (b : ResetButton) (x y : ℚ) : Prop :=
  b.x - b.detection_padding ≤ x ∧ x ≤ b.x + b.width + b.detection_padding ∧
  b.y - b.detection_padding ≤ y ∧ y ≤ b.y + b.height + b.detection_padding

instance (b : ResetButton) (x y : ℚ) : Decidable (insideExpanded b x y) := by
  unfold insideExpanded; infer_instance

/-- The literal button rectangle test of `check_button_hover`. -/
def insideLiteral (b : ResetButton) (x y : ℚ) : Prop :=
  b.x ≤ x ∧ x ≤ b.x + b.width ∧ b.y ≤ y ∧ y ≤ b.y + b.height

instance (b : ResetButton) (x y : ℚ) : Decidable (insideLiteral b x y) := by
  unfold insideLiteral; infer_instance

/-- `SimpleGame.check_button_hover`: returns the new state and the
"game was reset" flag. -/
def SimpleGame.check_button_hover (g : SimpleGame) (x y : ℚ) : SimpleGame × Bool :=
  let button := g.reset_button
  let in_expanded := decide (insideExpanded button x y)
  let in_button := decide (insideLiteral button x y)
  let current_in_area := in_expanded
  let just_left := !current_in_area && button.was_in_area
  let b1 := if just_left then
      { button with has_triggered := false, progress := 0, active := false, hover := false }
    else button
  if current_in_area && !b1.has_triggered then
    let b2 := { b1 with hover := true, active := true,
                        progress := b1.progress + (if in_button then 2 else 1) }
    if b2.max_progress ≤ b2.progress then
      let g' := g.reset_game
      ({ g' with reset_button := { b2 with has_triggered := true,
                                           progress := b2.max_progress,
                                           active := false,
                                           was_in_area := current_in_area } }, true)
    else ({ g with reset_button := { b2 with was_in_area := current_in_area } }, false)
  else if current_in_area && b1.has_triggered then
    ({ g with reset_button := { b1 with hover := true, active := false,
                                        was_in_area := current_in_area } }, false)
  else
    let b3 := { b1 with hover := false, active := false }
    let b4 := if !b3.has_triggered then { b3 with progress := max 0 (b3.progress - 3) }
              else b3
    ({ g with reset_button := { b4 with was_in_area := current_in_area } }, false)

/-- `SimpleGame.update_pause_state`. -/
def SimpleGame.update_pause_state (g : SimpleGame) : SimpleGame :=
  let g1 :=
    if g.fist_detected && !g.last_fist_state then
      { g with is_paused := true, pause_message_timer := 120 }
    else if !g.fist_detected && g.last_fist_state then
      { g with is_paused := false, pause_message_timer := 60 }
    else g
  let g2 := { g1 with last_fist_state := g1.fist_detected }
  if 0 < g2.pause_message_timer then
    { g2 with pause_message_timer := g2.pause_message_timer - 1 }
  else g2

/-- `detect_pinch` (the hand-present case): returns the pinch flag, the
pinch center, and the squared pixel distance (the source returns the
distance itself, used only for on-screen text; `distance < 40` is embedded
as `d < 1600`). -/
def detect_pinch (h : Hand) (width height : ℚ) : Bool × (ℚ × ℚ) × ℚ :=
  let thumb_tip := h 4
  let index_tip := h 8
  let tx := thumb_tip.x * width
  let ty := thumb_tip.y * height
  let ix := index_tip.x * width
  let iy := index_tip.y * height
  let d := (tx - ix) ^ 2 + (ty - iy) ^ 2
  (decide (d < 1600), ((tx + ix) / 2, (ty + iy) / 2), d)

/-- `detect_pointing` (the hand-present case). -/
def detect_pointing (h : Hand) (width height : ℚ) : Bool × (ℚ × ℚ) :=
  let thumbUp : ℕ := if 2/100 < |(h 4).x - (h 2).x| then 1 else 0
  let fIndex : ℕ := if (h 8).y < (h 6).y then 1 else 0
  let fMiddle : ℕ := if (h 12).y < (h 10).y then 1 else 0
  let fRing : ℕ := if (h 16).y < (h 14).y then 1 else 0
  let fPinky : ℕ := if (h 20).y < (h 18).y then 1 else 0
  let _ := thumbUp
  let index_up := decide (fIndex = 1)
  let other_fingers_down := decide (fMiddle + fRing + fPinky ≤ 1)
  (index_up && other_fingers_down, ((h 8).x * width, (h 8).y * height))

/-- `detect_left_swipe` (the hand-present case). -/
def detect_left_swipe (h : Hand) (width height : ℚ) : Bool × (ℚ × ℚ) :=
  let wrist := h 0
  let middle_tip := h 12
  let wrist_x := wrist.x * width
  let middle_x := middle_tip.x * width
  let thumbUp : ℕ := if (h 3).x < (h 4).x then 1 else 0
  let fIndex : ℕ := if (h 8).y < (h 6).y then 1 else 0
  let fMiddle : ℕ := if (h 12).y < (h 10).y then 1 else 0
  let fRing : ℕ := if (h 16).y < (h 14).y then 1 else 0
  let fPinky : ℕ := if (h 20).y < (h 18).y then 1 else 0
  let open_palm := decide (3 ≤ thumbUp + fIndex + fMiddle + fRing + fPinky)
  let is_left_extended := decide (middle_x < wrist_x - 50)
  (open_palm && is_left_extended, ((wrist_x + middle_x) / 2, (wrist.y + middle_tip.y) / 2 * height))

/-- `detect_fist` (the hand-present case).  All square-root comparisons of
the source have the shape `sqrt a < c * sqrt b` with `c > 0` and are
embedded as the equivalent `a < c^2 * b`; the running maximum over the
three consecutive fingertip distances (initialised at 0 in the source) is
compared squared the same way. -/
def detect_fist (h : Hand) : Bool :=
  let wrist := h 0
  let middle_mcp := h 9
  let pcx := (wrist.x + middle_mcp.x) / 2
  let pcy := (wrist.y + middle_mcp.y) / 2
  let thumb_tip := h 4
  let thumb_mcp := h 2
  let thumbSq := (thumb_tip.x - pcx) ^ 2 + (thumb_tip.y - pcy) ^ 2
  let thumbMcpSq := (thumb_mcp.x - pcx) ^ 2 + (thumb_mcp.y - pcy) ^ 2
  let thumb_bent := decide (thumbSq < (95/100) ^ 2 * thumbMcpSq)
  let bentAt := fun (tip pip mcp : ℕ) =>
    let basic := decide ((h pip).y < (h tip).y)
    let tipSq := ((h tip).x - pcx) ^ 2 + ((h tip).y - pcy) ^ 2
    let mcpSq := ((h mcp).x - pcx) ^ 2 + ((h mcp).y - pcy) ^ 2
    basic && decide (tipSq < (9/10) ^ 2 * mcpSq)
  let bentCount : ℕ :=
    (if thumb_bent then 1 else 0) + (if bentAt 8 6 5 then 1 else 0) +
    (if bentAt 12 10 9 then 1 else 0) + (if bentAt 16 14 13 then 1 else 0) +
    (if bentAt 20 18 17 then 1 else 0)
  let most_fingers_bent := decide (4 ≤ bentCount)
  let dSq := fun (a b : ℕ) => ((h a).x - (h b).x) ^ 2 + ((h a).y - (h b).y) ^ 2
  let maxAdjSq := max 0 (max (dSq 8 12) (max (dSq 12 16) (dSq 16 20)))
  let handSizeSq := (wrist.x - middle_mcp.x) ^ 2 + (wrist.y - middle_mcp.y) ^ 2
  let fingers_close_together := decide (maxAdjSq < (1/2) ^ 2 * handSizeSq)
  most_fingers_bent && fingers_close_together

/-- `update_fist_detection`: takes the raw detection and the global
`fist_history`, returns the stabilized detection and the new history. -/
def update_fist_detection (raw : Bool) (hist : List Bool) : Bool × List Bool :=
  let h1 := hist ++ [raw]
  let h2 := if 3 < h1.length then h1.tail else h1
  if 2 ≤ h2.length then
    let recent := h2.drop (h2.length - 2)
    (decide (1 ≤ recent.countP (fun b => b)), h2)
  else (raw, h2)

/-- `update_swipe_detection`: takes the per-frame swipe flag/position and
the global `swipe_history`, returns the trigger and the new history. -/
def update_swipe_detection (s : Bool) (pos : ℚ × ℚ)
    (hist : List (Bool × (ℚ × ℚ))) : Bool × List (Bool × (ℚ × ℚ)) :=
  let h1 := hist ++ [(s, pos)]
  let h2 := if 10 < h1.length then h1.tail else h1
  if 5 ≤ h2.length then
    let recent := h2.drop (h2.length - 5)
    (decide (3 ≤ recent.countP (fun p => p.1)), h2)
  else (false, h2)

/-- The mutable state threaded through `video_frame_callback`: the global
game instance plus the two module-level history lists. -/
structure World where
  game : SimpleGame
  fist_history : List Bool
  swipe_history : List (Bool × (ℚ × ℚ))
deriving DecidableEq

/-- Accumulator of the per-hand loop in `video_frame_callback`. -/
structure HandScan where
  game : SimpleGame
  fist_history : List Bool
  is_pinching : Bool
  pinch_center : ℚ × ℚ
  is_pointing : Bool
  point_position : ℚ × ℚ
  is_swiping : Bool
  swipe_position : ℚ × ℚ
deriving DecidableEq

/-- One iteration of the `for hand_landmarks in results.multi_hand_landmarks`
loop of `video_frame_callback` (drawing calls omitted).  Note that a
pointing hand calls `check_button_hover` right here, before any pause
gating. -/
def processHand (width height : ℚ) (acc : HandScan) (h : Hand) : HandScan :=
  let p := detect_pinch h width height
  let acc1 := if p.1 then { acc with is_pinching := true, pinch_center := p.2.1 } else acc
  let q := detect_pointing h width height
  let acc2 :=
    if q.1 then
      { acc1 with is_pointing := true, point_position := q.2,
                  game := (acc1.game.check_button_hover q.2.1 q.2.2).1 }
    else acc1
  let s := detect_left_swipe h width height
  let acc3 := if s.1 then { acc2 with is_swiping := true, swipe_position := s.2 } else acc2
  let raw := detect_fist h
  let fr := update_fist_detection raw acc3.fist_history
  { acc3 with game := { acc3.game with fist_detected := fr.1 }, fist_history := fr.2 }

/-- The accumulator at the start of the per-hand loop: the flags
`is_pinching`, `is_pointing`, `is_swiping` and their positions are
initialized exactly as in `video_frame_callback`. -/
def initScan (g : SimpleGame) (fh : List Bool) : HandScan :=
  { game := g, fist_history := fh, is_pinching := false, pinch_center := (0, 0),
    is_pointing := false, point_position := (0, 0), is_swiping := false,
    swipe_position := (0, 0) }

/-- The slingshot branch of the un-paused game-logic block of
`video_frame_callback` (`start_pull` / `update_pull` / `release`). -/
def slingshotPhase (scan : HandScan) (g1 : SimpleGame) : SimpleGame :=
  if scan.is_pinching && !g1.pulling then
    g1.start_pull scan.pinch_center.1 scan.pinch_center.2
  else if scan.is_pinching && g1.pulling then
    g1.update_pull scan.pinch_center.1 scan.pinch_center.2
  else if !scan.is_pinching && g1.pulling then g1.release
  else g1

/-- The button-progress branch of the un-paused game-logic block of
`video_frame_callback`: a pointing hand drives the button, otherwise the
(-1, -1) sentinel decays its progress. -/
def buttonPhase (scan : HandScan) (ga : SimpleGame) : SimpleGame :=
  if scan.is_pointing then
    (ga.check_button_hover scan.point_position.1 scan.point_position.2).1
  else (ga.check_button_hover (-1) (-1)).1

/-- One call of `video_frame_callback` after the lazy game construction
(the game already exists), with the detected hands given as landmark
snapshots; drawing and the returned frame are omitted.  An absent
`results.multi_hand_landmarks` is the empty hand list. -/
def videoTick (w : World) (hands : List Hand) (width height : ℚ) : World :=
  let scan := hands.foldl (processHand width height) (initScan w.game w.fist_history)
  let g1 := scan.game.update_pause_state
  let g2 := if !g1.is_paused then buttonPhase scan (slingshotPhase scan g1) else g1
  let sw := update_swipe_detection scan.is_swiping scan.swipe_position w.swipe_history
  let g3 :=
    if sw.1 && g2.game_won && !g2.is_transitioning && decide (g2.current_level < g2.max_level) then
      g2.next_level
    else g2
  let g4 := if !g3.is_paused then g3.update else g3
  { game := g4, fist_history := scan.fist_history, swipe_history := sw.2 }

/-- Driver for the fist stabilizer: feeds a list of raw samples through
`update_fist_detection`, collecting the stabilized outputs. -/
def runFist : List Bool → List Bool → List Bool × List Bool
  | [], hist => ([], hist)
  | r :: rs, hist =>
    let fr := update_fist_detection r hist
    let rest := runFist rs fr.2
    (fr.1 :: rest.1, rest.2)

/-- Concrete full-trail flying bird used to refute the eviction clause of
C9. -/
def cBirdFull : SimpleBird :=
  { mkBird 100 100 with is_flying := true,
                        trail := List.replicate 20 (0, 0) }

/-- Shape of the restart button after a non-firing in-area, not-yet-triggered
`check_button_hover` step: hover and active set, progress advanced, the
in-area flag recorded. -/
def armedButton (b : ResetButton) (p : ℚ) : ResetButton :=
  { b with hover := true, active := true, progress := p, was_in_area := true }

/-- Shape of the restart button right after the trigger fires. -/
def firedButton (b : ResetButton) : ResetButton :=
  { b with hover := true, active := false, progress := b.max_progress,
           has_triggered := true, was_in_area := true }

/-- Iterated `check_button_hover` calls at a fixed pointer position. -/
def hoverIter (g : SimpleGame) (x y : ℚ) : ℕ → SimpleGame
  | 0 => g
  | n + 1 => ((hoverIter g x y n).check_button_hover x y).1

/-- Fired flag of the (n+1)-st `check_button_hover` call at a fixed
pointer position. -/
def hoverFired (g : SimpleGame) (x y : ℚ) (n : ℕ) : Bool :=
  ((hoverIter g x y n).check_button_hover x y).2

/-- The fist classifier as the claim C8 words it: identical bent-finger
tests, but the proximity check uses the maximum PAIRWISE distance among all
six pairs of the four non-thumb fingertips (embedded squared, as in
`detect_fist`). -/
def fistClaimPairwise (h : Hand) : Bool :=
  let wrist := h 0
  let middle_mcp := h 9
  let pcx := (wrist.x + middle_mcp.x) / 2
  let pcy := (wrist.y + middle_mcp.y) / 2
  let thumb_tip := h 4
  let thumb_mcp := h 2
  let thumbSq := (thumb_tip.x - pcx) ^ 2 + (thumb_tip.y - pcy) ^ 2
  let thumbMcpSq := (thumb_mcp.x - pcx) ^ 2 + (thumb_mcp.y - pcy) ^ 2
  let thumb_bent := decide (thumbSq < (95/100) ^ 2 * thumbMcpSq)
  let bentAt := fun (tip pip mcp : ℕ) =>
    let basic := decide ((h pip).y < (h tip).y)
    let tipSq := ((h tip).x - pcx) ^ 2 + ((h tip).y - pcy) ^ 2
    let mcpSq := ((h mcp).x - pcx) ^ 2 + ((h mcp).y - pcy) ^ 2
    basic && decide (tipSq < (9/10) ^ 2 * mcpSq)
  let bentCount : ℕ :=
    (if thumb_bent then 1 else 0) + (if bentAt 8 6 5 then 1 else 0) +
    (if bentAt 12 10 9 then 1 else 0) + (if bentAt 16 14 13 then 1 else 0) +
    (if bentAt 20 18 17 then 1 else 0)
  let most_fingers_bent := decide (4 ≤ bentCount)
  let dSq := fun (a b : ℕ) => ((h a).x - (h b).x) ^ 2 + ((h a).y - (h b).y) ^ 2
  let maxPairSq := max (dSq 8 12) (max (dSq 8 16) (max (dSq 8 20)
    (max (dSq 12 16) (max (dSq 12 20) (dSq 16 20)))))
  let handSizeSq := (wrist.x - middle_mcp.x) ^ 2 + (wrist.y - middle_mcp.y) ^ 2
  let fingers_close_together := decide (maxPairSq < (1/2) ^ 2 * handSizeSq)
  most_fingers_bent && fingers_close_together

/-- The fist classifier with the proximity check the code actually
performs: maximum over the three CONSECUTIVE fingertip pairs
(index–middle, middle–ring, ring–pinky) only, written in the amended
claim's conjunction form. -/
def fistAdjacentSpec (h : Hand) : Bool :=
  let wrist := h 0
  let middle_mcp := h 9
  let pcx := (wrist.x + middle_mcp.x) / 2
  let pcy := (wrist.y + middle_mcp.y) / 2
  let thumb_tip := h 4
  let thumb_mcp := h 2
  let thumbSq := (thumb_tip.x - pcx) ^ 2 + (thumb_tip.y - pcy) ^ 2
  let thumbMcpSq := (thumb_mcp.x - pcx) ^ 2 + (thumb_mcp.y - pcy) ^ 2
  let thumb_bent := decide (thumbSq < (95/100) ^ 2 * thumbMcpSq)
  let bentAt := fun (tip pip mcp : ℕ) =>
    let basic := decide ((h pip).y < (h tip).y)
    let tipSq := ((h tip).x - pcx) ^ 2 + ((h tip).y - pcy) ^ 2
    let mcpSq := ((h mcp).x - pcx) ^ 2 + ((h mcp).y - pcy) ^ 2
    basic && decide (tipSq < (9/10) ^ 2 * mcpSq)
  let bentCount : ℕ :=
    (if thumb_bent then 1 else 0) + (if bentAt 8 6 5 then 1 else 0) +
    (if bentAt 12 10 9 then 1 else 0) + (if bentAt 16 14 13 then 1 else 0) +
    (if bentAt 20 18 17 then 1 else 0)
  let most_fingers_bent := decide (4 ≤ bentCount)
  let dSq := fun (a b : ℕ) => ((h a).x - (h b).x) ^ 2 + ((h a).y - (h b).y) ^ 2
  let handSizeSq := (wrist.x - middle_mcp.x) ^ 2 + (wrist.y - middle_mcp.y) ^ 2
  let bound := (1/2) ^ 2 * handSizeSq
  let fingers_close_together :=
    decide (dSq 8 12 < bound ∧ dSq 12 16 < bound ∧ dSq 16 20 < bound)
  most_fingers_bent && fingers_close_together

/-- Concrete hand snapshot: four fingers properly bent, the four non-thumb
fingertips on a line with consecutive gaps 0.16 (below the 0.2 proximity
bound) but index-to-pinky spread 0.48 (above it). -/
def cHandSpread : Hand := fun i =>
  if i = 0 then ⟨1/2, 1⟩
  else if i = 9 then ⟨1/2, 6/10⟩
  else if i = 4 then ⟨45/100, 75/100⟩
  else if i = 2 then ⟨3/10, 4/10⟩
  else if i = 8 then ⟨28/100, 8/10⟩
  else if i = 6 then ⟨28/100, 7/10⟩
  else if i = 5 then ⟨2/10, 5/10⟩
  else if i = 12 then ⟨44/100, 8/10⟩
  else if i = 10 then ⟨44/100, 9/10⟩
  else if i = 16 then ⟨6/10, 8/10⟩
  else if i = 14 then ⟨6/10, 7/10⟩
  else if i = 13 then ⟨6/10, 5/10⟩
  else if i = 20 then ⟨76/100, 8/10⟩
  else if i = 18 then ⟨76/100, 7/10⟩
  else if i = 17 then ⟨8/10, 45/100⟩
  else ⟨0, 0⟩

/-- Concrete hand snapshot that points (index extended, the other fingers
curled) with the index tip at normalized (0.1, 0.8) — pixel (64, 384) on a
640×480 frame, inside the restart button rectangle — and that is neither a
pinch, nor a swipe, nor a raw fist. -/
def cHandPoint : Hand := fun i =>
  if i = 0 then ⟨1/2, 95/100⟩
  else if i = 9 then ⟨1/2, 55/100⟩
  else if i = 4 then ⟨9/10, 1/10⟩
  else if i = 3 then ⟨95/100, 1/10⟩
  else if i = 2 then ⟨8/10, 2/10⟩
  else if i = 8 then ⟨1/10, 8/10⟩
  else if i = 6 then ⟨1/10, 9/10⟩
  else if i = 10 then ⟨2/10, 1/10⟩
  else if i = 12 then ⟨2/10, 5/10⟩
  else if i = 14 then ⟨3/10, 1/10⟩
  else if i = 16 then ⟨3/10, 5/10⟩
  else if i = 18 then ⟨4/10, 1/10⟩
  else if i = 20 then ⟨4/10, 5/10⟩
  else ⟨0, 0⟩

/-- Concrete paused world: the 640×480 game paused with the fist held in
the two previous frames, so the stabilizer keeps reporting a fist. -/
def cWorldPaused : World :=
  { game := { mkGame 640 480 with is_paused := true, last_fist_state := true }
    fist_history := [true, true]
    swipe_history := [] }

/-- C1: for every tick in which the projectile is flying, the physics
update produces vy' = vy + 0.3, vx' = 0.995·vx and pos' = pos + vel'
(gravity before drag, drag before integration: the position increment uses
the already-updated velocities).  `SimpleGame.update` invokes this bird
update exactly when no transition is in progress. -/
theorem flying_tick_physics (b : SimpleBird) (h : b.is_flying = true) :
    (b.update).vel_y = b.vel_y + 3/10 ∧
    (b.update).vel_x = (995/1000) * b.vel_x ∧
    (b.update).x = b.x + (995/1000) * b.vel_x ∧
    (b.update).y = b.y + (b.vel_y + 3/10) := by
  refine ⟨?_, ?_, ?_, ?_⟩ <;> simp [SimpleBird.update, h] <;> ring

/-- Witness for C1 at a concrete flying bird. -/
theorem flying_tick_physics_witness :
    ({ mkBird 100 200 with is_flying := true, vel_x := 4, vel_y := 2 } :
        SimpleBird).is_flying = true ∧
    (({ mkBird 100 200 with is_flying := true, vel_x := 4, vel_y := 2 } :
        SimpleBird).update).vel_y = 2 + 3/10 :=
  ⟨rfl, (flying_tick_physics _ rfl).1⟩

/-- C2: `release` while pulling launches with velocity exactly
0.15·(start − current) componentwise, makes the trail the single launch
point, and clears `pulling`; `release` while not pulling is a no-op, so
repeated calls are idempotent. -/
theorem release_exact_velocity_idempotent (g : SimpleGame) :
    (g.pulling = true →
      g.release = { g with
        bird := { g.bird with
          vel_x := (g.bird.start_x - g.bird.x) * (15/100),
          vel_y := (g.bird.start_y - g.bird.y) * (15/100),
          is_flying := true,
          trail := [(ratTrunc g.bird.x, ratTrunc g.bird.y)] },
        pulling := false }) ∧
    (g.pulling = false → g.release = g) ∧
    (g.release).release = g.release := by
  refine ⟨fun h => ?_, fun h => ?_, ?_⟩
  · simp [SimpleGame.release, SimpleBird.launch, h]
  · simp [SimpleGame.release, h]
  · have h2 : (g.release).pulling = false := by
      by_cases h : g.pulling <;> simp [SimpleGame.release, h]
    generalize g.release = g2 at h2 ⊢
    simp [SimpleGame.release, h2]

/-- Witness for C2 at a concrete pulling game. -/
theorem release_exact_velocity_idempotent_witness :
    ({ mkGame 640 480 with pulling := true } : SimpleGame).pulling = true ∧
    (({ mkGame 640 480 with pulling := true } : SimpleGame).release).pulling = false := by
  refine ⟨rfl, ?_⟩
  have h := (release_exact_velocity_idempotent
    { mkGame 640 480 with pulling := true }).1 rfl
  rw [h]

/-- C6: the fist stabilizer keeps a FIFO history of capacity 3 (oldest
sample evicted from the front); once at least two samples exist the output
is true iff at least one of the last two raw samples (the current one
included) is true, otherwise the raw sample is passed through; and the raw
sequence [F,T,T,F,T] from an empty history yields [F,T,T,T,T]. -/
theorem fist_stabilizer_window (raw : Bool) (hist : List Bool)
    (hlen : hist.length ≤ 3) :
    ((update_fist_detection raw hist).2).length ≤ 3 ∧
    ((update_fist_detection raw hist).2 =
      if hist.length = 3 then hist.tail ++ [raw] else hist ++ [raw]) ∧
    (hist = [] → (update_fist_detection raw hist).1 = raw) ∧
    (hist ≠ [] → (update_fist_detection raw hist).1 = (hist.getLastD false || raw)) ∧
    (runFist [false, true, true, false, true] []).1 =
      [false, true, true, true, true] := by
  rcases hist with _ | ⟨a, _ | ⟨b, _ | ⟨c, _ | ⟨d, t⟩⟩⟩⟩
  · revert raw; decide
  · revert raw a; decide
  · revert raw a b; decide
  · revert raw a b c; decide
  · exfalso
    simp only [List.length_cons] at hlen
    omega

/-- Witness for C6 at a concrete history. -/
theorem fist_stabilizer_window_witness :
    ([true, false, true] : List Bool).length ≤ 3 ∧
    (update_fist_detection false [true, false, true]).2 = [false, true, false] :=
  ⟨by decide, by
    have h := (fist_stabilizer_window false [true, false, true] (by decide)).2.1
    simpa using h⟩

/-- C7: the restart command (`reset_game`, invoked both by the button
trigger in `check_button_hover` and by the host sidebar reset) resets the
projectile to its start position with zero velocity, empty trail and not
flying, clears every target's destroyed flag while keeping target geometry,
zeroes the score, clears `won` and `pulling`, and leaves every other field
— current level, transition state, pause state, button state, geometry —
unchanged. -/
theorem reset_game_effect_and_frame (g : SimpleGame) :
    (g.reset_game).bird.x = g.bird.start_x ∧
    (g.reset_game).bird.y = g.bird.start_y ∧
    (g.reset_game).bird.vel_x = 0 ∧
    (g.reset_game).bird.vel_y = 0 ∧
    (g.reset_game).bird.is_flying = false ∧
    (g.reset_game).bird.trail = [] ∧
    (g.reset_game).bird.start_x = g.bird.start_x ∧
    (g.reset_game).bird.start_y = g.bird.start_y ∧
    (g.reset_game).bird.radius = g.bird.radius ∧
    (g.reset_game).targets.all (fun t => !t.is_destroyed) = true ∧
    (g.reset_game).targets.map (fun t => (t.x, t.y, t.radius)) =
      g.targets.map (fun t => (t.x, t.y, t.radius)) ∧
    (g.reset_game).score = 0 ∧
    (g.reset_game).game_won = false ∧
    (g.reset_game).pulling = false ∧
    (g.reset_game).current_level = g.current_level ∧
    (g.reset_game).max_level = g.max_level ∧
    (g.reset_game).is_transitioning = g.is_transitioning ∧
    (g.reset_game).transition_progress = g.transition_progress ∧
    (g.reset_game).transition_direction = g.transition_direction ∧
    (g.reset_game).is_paused = g.is_paused ∧
    (g.reset_game).fist_detected = g.fist_detected ∧
    (g.reset_game).last_fist_state = g.last_fist_state ∧
    (g.reset_game).pause_message_timer = g.pause_message_timer ∧
    (g.reset_game).reset_button = g.reset_button ∧
    (g.reset_game).width = g.width ∧
    (g.reset_game).height = g.height ∧
    (g.reset_game).game_area_width = g.game_area_width ∧
    (g.reset_game).game_area_height = g.game_area_height ∧
    (g.reset_game).game_offset_x = g.game_offset_x ∧
    (g.reset_game).game_offset_y = g.game_offset_y ∧
    (g.reset_game).pull_x = g.pull_x ∧
    (g.reset_game).pull_y = g.pull_y := by
  simp [SimpleGame.reset_game, SimpleBird.reset, List.all_map, List.map_map]

/-- C9 counterexample: with a full 20-entry trail, a flying tick leaves the
trail untouched — the oldest entry is NOT evicted and the newest position
is NOT appended, contradicting the claimed capacity-eviction behaviour. -/
theorem trail_no_eviction_counterexample :
    cBirdFull.is_flying = true ∧
    cBirdFull.trail.length = 20 ∧
    (cBirdFull.update).trail = cBirdFull.trail ∧
    (cBirdFull.update).trail ≠
      cBirdFull.trail.tail ++
        [(ratTrunc (cBirdFull.update).x, ratTrunc (cBirdFull.update).y)] := by
  refine ⟨rfl, by with_unfolding_all decide, by with_unfolding_all decide,
    by with_unfolding_all decide⟩

/-- C9 amended: the trail length stays ≤ 20 under every operation, and
while flying the new position is appended only while fewer than 20 entries
exist; once the trail holds 20 entries it stops recording entirely (no
eviction), so it keeps the first 20 flight positions. -/
theorem trail_bounded_no_eviction (b : SimpleBird) (vx vy : ℚ) :
    (b.trail.length ≤ 20 → (b.update).trail.length ≤ 20) ∧
    (b.launch vx vy).trail.length ≤ 20 ∧
    b.reset.trail.length ≤ 20 ∧
    (b.is_flying = true → b.trail.length = 20 → (b.update).trail = b.trail) ∧
    (b.is_flying = true → b.trail.length < 20 →
      (b.update).trail = b.trail ++
        [(ratTrunc (b.x + b.vel_x * (995/1000)),
          ratTrunc (b.y + (b.vel_y + 3/10)))]) := by
  refine ⟨fun hlen => ?_, by simp [SimpleBird.launch], by simp [SimpleBird.reset],
          fun hf hfull => ?_, fun hf hlt => ?_⟩
  · by_cases hf : b.is_flying
    · simp only [SimpleBird.update, hf, if_true]
      split
      · simpa using by omega
      · simpa using hlen
    · simp [SimpleBird.update, hf, hlen]
  · simp [SimpleBird.update, hf, hfull]
  · simp [SimpleBird.update, hf, hlt]

/-- Witness for C9's amended theorem at a concrete short-trail bird. -/
theorem trail_bounded_no_eviction_witness :
    ({ mkBird 5 5 with is_flying := true } : SimpleBird).trail.length ≤ 20 ∧
    (({ mkBird 5 5 with is_flying := true } : SimpleBird).update).trail.length ≤ 20 := by
  refine ⟨by decide, ?_⟩
  exact (trail_bounded_no_eviction { mkBird 5 5 with is_flying := true } 0 0).1
    (by decide)

/-- C5: `next_level` is a no-op unless not transitioning and
`current_level < max_level`; when it fires it increments the level
immediately and starts a left transition at progress 0.  While
transitioning, one `update` tick advances progress by exactly 3 and changes
nothing else (physics, collisions and the rest of the state are suspended);
on the first tick where progress reaches 100 the transition resolves to
idle, progress resets to 0 and the level layout and projectile are
re-initialized (via `init_level`) from the already-incremented level. -/
theorem next_level_and_transition (g : SimpleGame) :
    (¬(g.is_transitioning = false ∧ g.current_level < g.max_level) →
      g.next_level = g) ∧
    (g.is_transitioning = false → g.current_level < g.max_level →
      g.next_level = { g with current_level := g.current_level + 1,
                              is_transitioning := true, transition_progress := 0,
                              transition_direction := TransitionDirection.left }) ∧
    (g.is_transitioning = true → g.transition_progress + 3 < 100 →
      g.update = { g with transition_progress := g.transition_progress + 3 }) ∧
    (g.is_transitioning = true → 100 ≤ g.transition_progress + 3 →
      g.update = SimpleGame.init_level
        { g with is_transitioning := false, transition_progress := 0 }) := by
  refine ⟨fun h => ?_, fun h1 h2 => ?_, fun h1 h2 => ?_, fun h1 h2 => ?_⟩
  · simp only [SimpleGame.next_level]
    rw [if_neg h]
  · simp [SimpleGame.next_level, SimpleGame.start_transition, h1, h2]
  · have hn : ¬(100 ≤ g.transition_progress + 3) := by omega
    simp [SimpleGame.update, SimpleGame.update_transition, h1, hn]
  · simp [SimpleGame.update, SimpleGame.update_transition, h1, h2]

/-- Witness for C5: one transition tick from progress 0 yields progress 3. -/
theorem next_level_and_transition_witness :
    ({ mkGame 640 480 with is_transitioning := true } : SimpleGame).is_transitioning = true ∧
    (({ mkGame 640 480 with is_transitioning := true } : SimpleGame).update).transition_progress
      = 0 + 3 := by
  refine ⟨rfl, ?_⟩
  have h := (next_level_and_transition
    { mkGame 640 480 with is_transitioning := true }).2.2.1 rfl (by decide)
  rw [h]
  with_unfolding_all rfl

/-- A point inside the literal rectangle is inside the expanded rectangle
(the padding is nonnegative). -/
theorem insideLiteral_insideExpanded {b : ResetButton} {x y : ℚ}
    (hpad : 0 ≤ b.detection_padding) (h : insideLiteral b x y) :
    insideExpanded b x y := by
  obtain ⟨h1, h2, h3, h4⟩ := h
  exact ⟨by linarith, by linarith, by linarith, by linarith⟩

/-- In-area, not-yet-triggered, non-firing `check_button_hover` step inside
the literal rectangle: +2 progress, no fire. -/
theorem hover_step_advance (g : SimpleGame) (x y : ℚ)
    (hpad : 0 ≤ g.reset_button.detection_padding)
    (hin : insideLiteral g.reset_button x y)
    (ht : g.reset_button.has_triggered = false)
    (hlt : g.reset_button.progress + 2 < g.reset_button.max_progress) :
    g.check_button_hover x y =
      ({ g with reset_button := armedButton g.reset_button (g.reset_button.progress + 2) },
       false) := by
  have hexp := insideLiteral_insideExpanded hpad hin
  have hnle : ¬(g.reset_button.max_progress ≤ g.reset_button.progress + 2) :=
    not_le.mpr hlt
  simp [SimpleGame.check_button_hover, decide_eq_true hexp, decide_eq_true hin,
    ht, hnle, armedButton]

/-- In-area, not-yet-triggered, firing `check_button_hover` step: resets the
game, pins progress, sets the triggered flag, reports the fire. -/
theorem hover_step_fire (g : SimpleGame) (x y : ℚ)
    (hpad : 0 ≤ g.reset_button.detection_padding)
    (hin : insideLiteral g.reset_button x y)
    (ht : g.reset_button.has_triggered = false)
    (hge : g.reset_button.max_progress ≤ g.reset_button.progress + 2) :
    g.check_button_hover x y =
      ({ g.reset_game with reset_button := firedButton g.reset_button }, true) := by
  have hexp := insideLiteral_insideExpanded hpad hin
  simp [SimpleGame.check_button_hover, decide_eq_true hexp, decide_eq_true hin,
    ht, hge, firedButton, SimpleGame.reset_game, SimpleBird.reset]

/-- In-expanded-area step after the trigger already fired: state kept,
progress pinned, no second fire. -/
theorem hover_step_already_triggered (g : SimpleGame) (x y : ℚ)
    (hexp : insideExpanded g.reset_button x y)
    (ht : g.reset_button.has_triggered = true) :
    g.check_button_hover x y =
      ({ g with reset_button :=
          { g.reset_button with
            hover := true
            active := false
            was_in_area := true } }, false) := by
  simp [SimpleGame.check_button_hover, decide_eq_true hexp, ht]

/-- Step at a point outside the expanded rectangle when the pointer was in
the area last frame: full exit, trigger re-armed, progress cleared. -/
theorem hover_step_exit (g : SimpleGame) (x y : ℚ)
    (hout : ¬insideExpanded g.reset_button x y)
    (hwas : g.reset_button.was_in_area = true) :
    g.check_button_hover x y =
      ({ g with reset_button :=
          { g.reset_button with
            has_triggered := false
            progress := 0
            active := false
            hover := false
            was_in_area := false } }, false) := by
  have hd : decide (insideExpanded g.reset_button x y) = false :=
    decide_eq_false hout
  simp [SimpleGame.check_button_hover, hd, hwas]

/-- After k in-rectangle calls (1 ≤ k ≤ 29), the button is armed with
progress 2k and nothing else in the game has changed. -/
theorem hover_iter_armed (g : SimpleGame) (x y : ℚ)
    (hpad : 0 ≤ g.reset_button.detection_padding)
    (hin : insideLiteral g.reset_button x y)
    (hmax : g.reset_button.max_progress = 60)
    (hp0 : g.reset_button.progress = 0)
    (ht : g.reset_button.has_triggered = false) :
    ∀ k : ℕ, 1 ≤ k → k ≤ 29 →
      hoverIter g x y k =
        { g with reset_button := armedButton g.reset_button (2 * k) } := by
  intro k
  induction k with
  | zero => omega
  | succ n ih =>
    intro _ h29
    by_cases hn : n = 0
    · subst hn
      have hstep := hover_step_advance g x y hpad hin ht
        (by rw [hp0, hmax]; norm_num)
      have e1 : hoverIter g x y 1 = (g.check_button_hover x y).1 := rfl
      rw [e1, hstep, hp0]
      norm_num
    · have hiter := ih (by omega) (by omega)
      have hnq : ((n : ℚ)) ≤ 28 := by exact_mod_cast (by omega : n ≤ 28)
      have hlt2 : ({ g with reset_button := armedButton g.reset_button (2 * n) } :
          SimpleGame).reset_button.progress + 2 <
          ({ g with reset_button := armedButton g.reset_button (2 * n) } :
          SimpleGame).reset_button.max_progress := by
        show 2 * (n:ℚ) + 2 < g.reset_button.max_progress
        rw [hmax]
        linarith
      have hstep := hover_step_advance
        { g with reset_button := armedButton g.reset_button (2 * n) } x y
        hpad hin ht hlt2
      have e1 : hoverIter g x y (n + 1) =
          ((hoverIter g x y n).check_button_hover x y).1 := rfl
      rw [e1, hiter, hstep]
      show ({ g with reset_button := armedButton g.reset_button (2 * n + 2) } :
        SimpleGame) = _
      have hc : (2 : ℚ) * (n + 1 : ℕ) = 2 * n + 2 := by push_cast; ring
      rw [hc]

/-- C3: a pointer held continuously inside the literal button rectangle,
starting from progress 0 and not triggered, accumulates progress 2 per
call; the restart fires exactly once, on the 30th call (never earlier),
pinning progress at 60 and setting the triggered flag; every further
in-area call is a no-op with no second fire, and a call at a point outside
the expanded (padded) rectangle resets triggered to false and progress
to 0. -/
theorem restart_button_thirty_tick_single_fire (g : SimpleGame) (x y qx qy : ℚ)
    (hpad : 0 ≤ g.reset_button.detection_padding)
    (hin : insideLiteral g.reset_button x y)
    (hmax : g.reset_button.max_progress = 60)
    (hp0 : g.reset_button.progress = 0)
    (ht : g.reset_button.has_triggered = false)
    (hout : ¬insideExpanded g.reset_button qx qy) :
    (∀ k : ℕ, k ≤ 29 →
      (hoverIter g x y k).reset_button.progress = 2 * k ∧
      (hoverIter g x y k).reset_button.has_triggered = false) ∧
    (∀ k : ℕ, k < 29 → hoverFired g x y k = false) ∧
    hoverFired g x y 29 = true ∧
    (hoverIter g x y 30).reset_button.has_triggered = true ∧
    (hoverIter g x y 30).reset_button.progress = 60 ∧
    (∀ k : ℕ, 30 ≤ k → hoverFired g x y k = false) ∧
    ((hoverIter g x y 30).check_button_hover qx qy).1.reset_button.has_triggered = false ∧
    ((hoverIter g x y 30).check_button_hover qx qy).1.reset_button.progress = 0 := by
  have harm := hover_iter_armed g x y hpad hin hmax hp0 ht
  -- the state after the firing 30th call
  have h29 : hoverIter g x y 29 =
      { g with reset_button := armedButton g.reset_button (2 * (29:ℕ)) } :=
    harm 29 (by omega) (by omega)
  have hge2 : ({ g with reset_button := armedButton g.reset_button (2 * (29:ℕ)) } :
      SimpleGame).reset_button.max_progress ≤
      ({ g with reset_button := armedButton g.reset_button (2 * (29:ℕ)) } :
      SimpleGame).reset_button.progress + 2 := by
    show g.reset_button.max_progress ≤ 2 * ((29:ℕ):ℚ) + 2
    rw [hmax]
    norm_num
  have hfire := hover_step_fire
    { g with reset_button := armedButton g.reset_button (2 * (29:ℕ)) } x y
    hpad hin ht hge2
  have e30 : hoverIter g x y 30 = ((hoverIter g x y 29).check_button_hover x y).1 := rfl
  have h30 : hoverIter g x y 30 =
      (({ g with reset_button := armedButton g.reset_button (2 * (29:ℕ)) } :
        SimpleGame).check_button_hover x y).1 := by
    rw [e30, h29]
  have htrig30 : (hoverIter g x y 30).reset_button.has_triggered = true := by
    rw [h30, hfire]
    rfl
  have hprog30 : (hoverIter g x y 30).reset_button.progress = 60 := by
    rw [h30, hfire]
    exact hmax
  have hexp30 : insideExpanded (hoverIter g x y 30).reset_button x y := by
    rw [h30, hfire]
    exact insideLiteral_insideExpanded hpad hin
  have hwas30 : (hoverIter g x y 30).reset_button.was_in_area = true := by
    rw [h30, hfire]
    rfl
  have hout30 : ¬insideExpanded (hoverIter g x y 30).reset_button qx qy := by
    rw [h30, hfire]
    exact hout
  -- the post-fire state is a fixpoint of further in-area calls
  have hfix : (hoverIter g x y 30).check_button_hover x y = (hoverIter g x y 30, false) := by
    rw [hover_step_already_triggered _ x y hexp30 htrig30]
    rw [h30, hfire]
    rfl
  have hall : ∀ k : ℕ, 30 ≤ k → hoverIter g x y k = hoverIter g x y 30 := by
    intro k
    induction k with
    | zero => omega
    | succ n ih =>
      intro hk
      by_cases hn : n + 1 = 30
      · rw [hn]
      · have h30n : 30 ≤ n := by omega
        have en : hoverIter g x y (n + 1) =
            ((hoverIter g x y n).check_button_hover x y).1 := rfl
        rw [en, ih h30n, hfix]
  have hxstep := hover_step_exit (hoverIter g x y 30) qx qy hout30 hwas30
  refine ⟨?_, ?_, ?_, htrig30, hprog30, ?_, ?_, ?_⟩
  · intro k hk
    rcases Nat.eq_zero_or_pos k with hk0 | hk1
    · subst hk0
      exact ⟨by simpa using hp0, ht⟩
    · rw [harm k hk1 hk]
      exact ⟨rfl, ht⟩
  · intro k hk
    rcases Nat.eq_zero_or_pos k with hk0 | hk1
    · subst hk0
      have hlt0 : g.reset_button.progress + 2 < g.reset_button.max_progress := by
        rw [hp0, hmax]
        norm_num
      have hstep := hover_step_advance g x y hpad hin ht hlt0
      show ((g.check_button_hover x y)).2 = false
      rw [hstep]
    · have hkq : ((k : ℚ)) ≤ 28 := by exact_mod_cast (by omega : k ≤ 28)
      have hltk : ({ g with reset_button := armedButton g.reset_button (2 * k) } :
          SimpleGame).reset_button.progress + 2 <
          ({ g with reset_button := armedButton g.reset_button (2 * k) } :
          SimpleGame).reset_button.max_progress := by
        show 2 * (k:ℚ) + 2 < g.reset_button.max_progress
        rw [hmax]
        linarith
      have hstep := hover_step_advance
        { g with reset_button := armedButton g.reset_button (2 * k) } x y
        hpad hin ht hltk
      show (((hoverIter g x y k).check_button_hover x y)).2 = false
      rw [harm k hk1 (by omega), hstep]
  · show (((hoverIter g x y 29).check_button_hover x y)).2 = true
    rw [h29, hfire]
  · intro k hk
    show (((hoverIter g x y k).check_button_hover x y)).2 = false
    rw [hall k hk, hfix]
  · rw [hxstep]
  · rw [hxstep]

/-- Witness for C3 at the concrete 640×480 game with the pointer at
(64, 384), inside the literal button rectangle. -/
theorem restart_button_thirty_tick_single_fire_witness :
    insideLiteral (mkGame 640 480).reset_button 64 384 ∧
    hoverFired (mkGame 640 480) 64 384 29 = true := by
  have h := restart_button_thirty_tick_single_fire (mkGame 640 480) 64 384 (-100) (-100)
    (by with_unfolding_all decide) (by with_unfolding_all decide)
    (by with_unfolding_all decide) (by with_unfolding_all decide)
    (by with_unfolding_all decide) (by with_unfolding_all decide)
  exact ⟨by with_unfolding_all decide, h.2.2.1⟩

/-- C8 counterexample: on `cHandSpread` the code's classifier (consecutive
fingertip pairs only) reports a fist, while the claimed pairwise-distance
criterion rejects it — the index-to-pinky spread exceeds half the hand
size. -/
theorem fist_pairwise_counterexample :
    detect_fist cHandSpread = true ∧ fistClaimPairwise cHandSpread = false :=
  ⟨by with_unfolding_all decide, by with_unfolding_all decide⟩

/-- C8 amended: the fist classifier returns true iff at least 4 of the 5
fingers are bent (thumb 0.95 ratio without the y-test, others 0.90 ratio
with tip-y > pip-y) AND each of the three CONSECUTIVE non-thumb fingertip
distances (index–middle, middle–ring, ring–pinky) is < 0.5 × hand-size —
not the maximum over all pairwise distances. -/
theorem fist_detector_adjacent_equiv (h : Hand) :
    detect_fist h = fistAdjacentSpec h := by
  simp only [detect_fist, fistAdjacentSpec]
  congr 1
  rw [decide_eq_decide]
  simp only [max_lt_iff]
  constructor
  · exact fun hh => ⟨hh.2.1, hh.2.2.1, hh.2.2.2⟩
  · rintro ⟨ha, hb, hc⟩
    have h0 : (0:ℚ) ≤ ((h 8).x - (h 12).x) ^ 2 + ((h 8).y - (h 12).y) ^ 2 := by
      positivity
    exact ⟨lt_of_le_of_lt h0 ha, ha, hb, hc⟩

/-- `update_swipe_detection` cannot trigger while the history is shorter
than 4 entries. -/
theorem update_swipe_short (s : Bool) (pos : ℚ × ℚ)
    (sh : List (Bool × (ℚ × ℚ))) (h : sh.length < 4) :
    (update_swipe_detection s pos sh).1 = false := by
  have h1 : ¬(10 < (sh ++ [(s, pos)]).length) := by
    simp only [List.length_append, List.length_cons, List.length_nil]
    omega
  have h2 : ¬(5 ≤ (sh ++ [(s, pos)]).length) := by
    simp only [List.length_append, List.length_cons, List.length_nil]
    omega
  simp only [update_swipe_detection]
  rw [if_neg h1, if_neg h2]

/-- `update_pause_state` never touches the restart button. -/
theorem update_pause_state_reset_button (g : SimpleGame) :
    (g.update_pause_state).reset_button = g.reset_button := by
  simp only [SimpleGame.update_pause_state]
  split_ifs <;> rfl

/-- `update_pause_state` never touches the pulling flag. -/
theorem update_pause_state_pulling (g : SimpleGame) :
    (g.update_pause_state).pulling = g.pulling := by
  simp only [SimpleGame.update_pause_state]
  split_ifs <;> rfl

/-- Without a fist edge (`fist_detected = false`, `last_fist_state = false`),
`update_pause_state` keeps the pause flag. -/
theorem update_pause_state_no_edge (g : SimpleGame)
    (h1 : g.fist_detected = false) (h2 : g.last_fist_state = false) :
    (g.update_pause_state).is_paused = g.is_paused := by
  simp [SimpleGame.update_pause_state, h1, h2]
  try (split_ifs <;> rfl)

/-- A rising-edge-free tick with the fist held keeps the pause flag too. -/
theorem update_pause_state_held (g : SimpleGame)
    (h1 : g.fist_detected = true) :
    (g.update_pause_state).is_paused =
      (if g.last_fist_state then g.is_paused else true) := by
  simp only [SimpleGame.update_pause_state, h1]
  by_cases h2 : g.last_fist_state <;> simp [h2] <;> split_ifs <;> rfl

/-- A falling fist edge (`fist_detected = false`, `last_fist_state = true`)
un-pauses the game. -/
theorem update_pause_state_falling_edge (g : SimpleGame)
    (h1 : g.fist_detected = false) (h2 : g.last_fist_state = true) :
    (g.update_pause_state).is_paused = false := by
  simp [SimpleGame.update_pause_state, h1, h2]

/-- `check_button_hover` never changes the pause flag (also through the
restart it may fire). -/
theorem check_button_hover_is_paused (g : SimpleGame) (x y : ℚ) :
    ((g.check_button_hover x y).1).is_paused = g.is_paused := by
  simp only [SimpleGame.check_button_hover, SimpleGame.reset_game]
  split_ifs <;> rfl

/-- `start_pull` never changes the pause flag. -/
theorem start_pull_is_paused (g : SimpleGame) (x y : ℚ) :
    ((g.start_pull x y)).is_paused = g.is_paused := by
  simp only [SimpleGame.start_pull]
  split_ifs <;> rfl

/-- `update_pull` never changes the pause flag. -/
theorem update_pull_is_paused (g : SimpleGame) (x y : ℚ) :
    ((g.update_pull x y)).is_paused = g.is_paused := by
  simp only [SimpleGame.update_pull]
  split_ifs <;> rfl

/-- `release` never changes the pause flag. -/
theorem release_is_paused (g : SimpleGame) :
    (g.release).is_paused = g.is_paused := by
  simp only [SimpleGame.release]
  split_ifs <;> rfl

/-- `next_level` never changes the pause flag. -/
theorem next_level_is_paused (g : SimpleGame) :
    (g.next_level).is_paused = g.is_paused := by
  simp only [SimpleGame.next_level, SimpleGame.start_transition]
  split_ifs <;> rfl

/-- `SimpleGame.update` never changes the pause flag. -/
theorem update_is_paused (g : SimpleGame) :
    (g.update).is_paused = g.is_paused := by
  simp only [SimpleGame.update, SimpleGame.update_transition, SimpleGame.init_level]
  split_ifs <;> rfl

/-- `SimpleGame.update` never changes the restart button. -/
theorem update_reset_button (g : SimpleGame) :
    (g.update).reset_button = g.reset_button := by
  simp only [SimpleGame.update, SimpleGame.update_transition, SimpleGame.init_level]
  split_ifs <;> rfl

/-- Without a pinch and with nothing pulled, the slingshot phase is a
no-op. -/
theorem slingshotPhase_skip (scan : HandScan) (g1 : SimpleGame)
    (h1 : scan.is_pinching = false) (h2 : g1.pulling = false) :
    slingshotPhase scan g1 = g1 := by
  simp [slingshotPhase, h1, h2]

/-- The post-scan pipeline of one tick, for a scan that detected a single
pointing hand (no pinch) holding still inside the literal button rectangle,
with no fist edge and a swipe history too short to trigger: the button
progress q advances by 2 when the game is un-paused (the second
`check_button_hover` call) and by 0 otherwise. -/
theorem tick_after_scan (w : World) (hands : List Hand) (width height : ℚ)
    (scan : HandScan) (q : ℚ)
    (hscan : hands.foldl (processHand width height) (initScan w.game w.fist_history) = scan)
    (hpin : scan.is_pinching = false)
    (hpoint : scan.is_pointing = true)
    (hfd : scan.game.fist_detected = false)
    (hlast : scan.game.last_fist_state = false)
    (hpull : scan.game.pulling = false)
    (hpad : 0 ≤ scan.game.reset_button.detection_padding)
    (hin : insideLiteral scan.game.reset_button
      scan.point_position.1 scan.point_position.2)
    (htr : scan.game.reset_button.has_triggered = false)
    (hprog : scan.game.reset_button.progress = q)
    (hlt : q + 2 < scan.game.reset_button.max_progress)
    (hshlen : w.swipe_history.length < 4) :
    (videoTick w hands width height).game.reset_button.progress =
      q + (if scan.game.is_paused then 0 else 2) := by
  have hg1p : (scan.game.update_pause_state).pulling = false := by
    rw [update_pause_state_pulling]
    exact hpull
  have hg1paused : (scan.game.update_pause_state).is_paused = scan.game.is_paused :=
    update_pause_state_no_edge _ hfd hlast
  have hg1btn : (scan.game.update_pause_state).reset_button = scan.game.reset_button :=
    update_pause_state_reset_button _
  have hsling : slingshotPhase scan (scan.game.update_pause_state) =
      scan.game.update_pause_state :=
    slingshotPhase_skip _ _ hpin hg1p
  have hsw1 : (update_swipe_detection scan.is_swiping scan.swipe_position
      w.swipe_history).1 = false :=
    update_swipe_short _ _ _ hshlen
  simp only [videoTick]
  rw [hscan]
  by_cases hp : scan.game.is_paused
  · simp only [hg1paused, hp, Bool.not_true, Bool.false_eq_true, if_false,
      hsw1, Bool.false_and, if_neg (by simp : ¬(false = true))]
    rw [hg1btn, hprog]
    simp
  · have hpf : scan.game.is_paused = false := by
      simpa using hp
    have hpad2 : 0 ≤ (scan.game.update_pause_state).reset_button.detection_padding := by
      rw [hg1btn]
      exact hpad
    have hin2 : insideLiteral (scan.game.update_pause_state).reset_button
        scan.point_position.1 scan.point_position.2 := by
      rw [hg1btn]
      exact hin
    have htr2 : (scan.game.update_pause_state).reset_button.has_triggered = false := by
      rw [hg1btn]
      exact htr
    have hlt2 : (scan.game.update_pause_state).reset_button.progress + 2 <
        (scan.game.update_pause_state).reset_button.max_progress := by
      rw [hg1btn, hprog]
      exact hlt
    have hstep2 := hover_step_advance (scan.game.update_pause_state)
      scan.point_position.1 scan.point_position.2 hpad2 hin2 htr2 hlt2
    have hBpaused : (buttonPhase scan
        (slingshotPhase scan (scan.game.update_pause_state))).is_paused = false := by
      rw [hsling]
      unfold buttonPhase
      split_ifs <;> rw [check_button_hover_is_paused] <;> rw [hg1paused, hpf]
    have hBprog : (buttonPhase scan
        (slingshotPhase scan (scan.game.update_pause_state))).reset_button.progress =
        q + 2 := by
      rw [hsling]
      unfold buttonPhase
      rw [if_pos (by rw [hpoint] : scan.is_pointing = true), hstep2]
      show (scan.game.update_pause_state).reset_button.progress + 2 = q + 2
      rw [hg1btn, hprog]
    simp only [hg1paused, hpf, Bool.not_false, if_pos rfl, hsw1, Bool.false_and,
      if_neg (by simp : ¬(false = true)), ite_true]
    rw [hBpaused]
    rw [if_pos (show (!false) = true from rfl)]
    rw [update_reset_button, hBprog]

/-- Evaluation of the per-hand loop on a single hand that points (and
neither pinches nor swipes): the button is driven once right here, inside
the loop, before any pause gating. -/
theorem scan_single_pointing (g : SimpleGame) (fh : List Bool) (hd : Hand)
    (width height px py : ℚ)
    (hpt : detect_pointing hd width height = (true, (px, py)))
    (hpn : (detect_pinch hd width height).1 = false)
    (hsw : (detect_left_swipe hd width height).1 = false) :
    [hd].foldl (processHand width height) (initScan g fh) =
      { game := { ((g.check_button_hover px py).1) with
                  fist_detected := (update_fist_detection (detect_fist hd) fh).1 }
        fist_history := (update_fist_detection (detect_fist hd) fh).2
        is_pinching := false
        pinch_center := (0, 0)
        is_pointing := true
        point_position := (px, py)
        is_swiping := false
        swipe_position := (0, 0) } := by
  simp [processHand, initScan, hpn, hpt, hsw]

/-- C10: on a tick with a single pointing hand (no pinch, no swipe, no
stabilized fist) whose pointer sits inside the literal button rectangle,
`check_button_hover` runs twice — once unconditionally in the per-hand
loop, even when paused, and once more in the un-paused game-logic phase —
so the button progress advances by 4 per tick when the game is not paused,
and still by 2 when it is. -/
theorem pointing_double_button_update
    (g : SimpleGame) (fh : List Bool) (sh : List (Bool × (ℚ × ℚ)))
    (hd : Hand) (width height px py p : ℚ)
    (hpt : detect_pointing hd width height = (true, (px, py)))
    (hpn : (detect_pinch hd width height).1 = false)
    (hsw : (detect_left_swipe hd width height).1 = false)
    (hfist : (update_fist_detection (detect_fist hd) fh).1 = false)
    (hlast : g.last_fist_state = false)
    (hpull : g.pulling = false)
    (hpad : 0 ≤ g.reset_button.detection_padding)
    (hin : insideLiteral g.reset_button px py)
    (htr : g.reset_button.has_triggered = false)
    (hprog : g.reset_button.progress = p)
    (hlt : p + 4 < g.reset_button.max_progress)
    (hshlen : sh.length < 4) :
    (videoTick ⟨g, fh, sh⟩ [hd] width height).game.reset_button.progress =
      p + (if g.is_paused then 2 else 4) := by
  have hlt1 : g.reset_button.progress + 2 < g.reset_button.max_progress := by
    rw [hprog]
    linarith
  have hstep1 := hover_step_advance g px py hpad hin htr hlt1
  have hscan := scan_single_pointing g fh hd width height px py hpt hpn hsw
  rw [hstep1] at hscan
  have hltq : g.reset_button.progress + 2 + 2 < g.reset_button.max_progress := by
    rw [hprog]
    linarith
  have h := tick_after_scan ⟨g, fh, sh⟩ [hd] width height _
    (g.reset_button.progress + 2) hscan rfl rfl hfist hlast hpull hpad hin htr rfl
    hltq hshlen
  rw [h]
  show (g.reset_button.progress + 2) + (if g.is_paused then 0 else 2) =
    p + (if g.is_paused then 2 else 4)
  rw [hprog]
  split_ifs <;> ring

/-- Witness for C10: the un-paused 640×480 game with the pointing hand held
inside the button gains 4 progress in one tick. -/
theorem pointing_double_button_update_witness :
    detect_pointing cHandPoint 640 480 = (true, (64, 384)) ∧
    (videoTick ⟨mkGame 640 480, [], []⟩ [cHandPoint] 640 480).game.reset_button.progress
      = 0 + (if (mkGame 640 480).is_paused then 2 else 4) := by
  refine ⟨by with_unfolding_all decide, ?_⟩
  exact pointing_double_button_update (mkGame 640 480) [] [] cHandPoint 640 480 64 384 0
    (by with_unfolding_all decide) (by with_unfolding_all decide)
    (by with_unfolding_all decide) (by with_unfolding_all decide)
    rfl rfl (by with_unfolding_all decide) (by with_unfolding_all decide)
    (by with_unfolding_all decide) (by with_unfolding_all decide)
    (by with_unfolding_all decide) (by decide)

/-- C4 counterexample: a tick of the paused world with a pointing hand
leaves the game paused yet advances the restart button's progress from 0
to 2 — the per-hand loop calls `check_button_hover` before any pause
gating, so restart-button progress updates are NOT skipped while paused. -/
theorem paused_button_update_counterexample :
    cWorldPaused.game.is_paused = true ∧
    cWorldPaused.game.reset_button.progress = 0 ∧
    (videoTick cWorldPaused [cHandPoint] 640 480).game.is_paused = true ∧
    (videoTick cWorldPaused [cHandPoint] 640 480).game.reset_button.progress = 2 := by
  refine ⟨rfl, by with_unfolding_all decide, by with_unfolding_all decide,
    by with_unfolding_all decide⟩

/-- `update_pause_state` only touches the pause fields: projectile,
targets, score, won, pulling, transition and level state are untouched. -/
theorem update_pause_state_frame (g : SimpleGame) :
    (g.update_pause_state).bird = g.bird ∧
    (g.update_pause_state).targets = g.targets ∧
    (g.update_pause_state).score = g.score ∧
    (g.update_pause_state).game_won = g.game_won ∧
    (g.update_pause_state).pulling = g.pulling ∧
    (g.update_pause_state).is_transitioning = g.is_transitioning ∧
    (g.update_pause_state).transition_progress = g.transition_progress ∧
    (g.update_pause_state).current_level = g.current_level ∧
    (g.update_pause_state).reset_button = g.reset_button := by
  simp only [SimpleGame.update_pause_state]
  split_ifs <;> exact ⟨rfl, rfl, rfl, rfl, rfl, rfl, rfl, rfl, rfl⟩

/-- A loop iteration over a hand that does not point only changes the
stabilized-fist output and the fist history. -/
theorem processHand_no_pointing (width height : ℚ) (acc : HandScan) (hd : Hand)
    (hpt : (detect_pointing hd width height).1 = false) :
    (processHand width height acc hd).game =
      { acc.game with fist_detected :=
          (update_fist_detection (detect_fist hd) acc.fist_history).1 } ∧
    (processHand width height acc hd).is_pointing = acc.is_pointing := by
  constructor <;>
    (simp only [processHand, hpt, Bool.false_eq_true, if_false]
     split_ifs <;> rfl)

/-- Folding the per-hand loop over hands none of which points preserves the
whole game state except the stabilized-fist flag, and leaves the pointing
flag as it started. -/
theorem scan_no_pointing_frame (width height : ℚ) (hands : List Hand)
    (acc : HandScan)
    (hnp : ∀ hd ∈ hands, (detect_pointing hd width height).1 = false) :
    (hands.foldl (processHand width height) acc).game.bird = acc.game.bird ∧
    (hands.foldl (processHand width height) acc).game.targets = acc.game.targets ∧
    (hands.foldl (processHand width height) acc).game.score = acc.game.score ∧
    (hands.foldl (processHand width height) acc).game.game_won = acc.game.game_won ∧
    (hands.foldl (processHand width height) acc).game.pulling = acc.game.pulling ∧
    (hands.foldl (processHand width height) acc).game.is_transitioning =
      acc.game.is_transitioning ∧
    (hands.foldl (processHand width height) acc).game.transition_progress =
      acc.game.transition_progress ∧
    (hands.foldl (processHand width height) acc).game.current_level =
      acc.game.current_level ∧
    (hands.foldl (processHand width height) acc).game.reset_button =
      acc.game.reset_button ∧
    (hands.foldl (processHand width height) acc).game.is_paused = acc.game.is_paused ∧
    (hands.foldl (processHand width height) acc).game.last_fist_state =
      acc.game.last_fist_state ∧
    (hands.foldl (processHand width height) acc).is_pointing = acc.is_pointing := by
  induction hands generalizing acc with
  | nil =>
    exact ⟨rfl, rfl, rfl, rfl, rfl, rfl, rfl, rfl, rfl, rfl, rfl, rfl⟩
  | cons hd tl ih =>
    have h1 := processHand_no_pointing width height acc hd (hnp hd (by simp))
    have hrec := ih (processHand width height acc hd) (fun x hx => hnp x (by simp [hx]))
    rw [List.foldl_cons]
    exact ⟨hrec.1.trans (by rw [h1.1]),
           hrec.2.1.trans (by rw [h1.1]),
           hrec.2.2.1.trans (by rw [h1.1]),
           hrec.2.2.2.1.trans (by rw [h1.1]),
           hrec.2.2.2.2.1.trans (by rw [h1.1]),
           hrec.2.2.2.2.2.1.trans (by rw [h1.1]),
           hrec.2.2.2.2.2.2.1.trans (by rw [h1.1]),
           hrec.2.2.2.2.2.2.2.1.trans (by rw [h1.1]),
           hrec.2.2.2.2.2.2.2.2.1.trans (by rw [h1.1]),
           hrec.2.2.2.2.2.2.2.2.2.1.trans (by rw [h1.1]),
           hrec.2.2.2.2.2.2.2.2.2.2.1.trans (by rw [h1.1]),
           hrec.2.2.2.2.2.2.2.2.2.2.2.trans h1.2⟩

/-- The slingshot phase never changes the pause flag. -/
theorem slingshotPhase_is_paused (scan : HandScan) (g1 : SimpleGame) :
    (slingshotPhase scan g1).is_paused = g1.is_paused := by
  unfold slingshotPhase
  split_ifs <;>
    first
      | rfl
      | rw [start_pull_is_paused]
      | rw [update_pull_is_paused]
      | rw [release_is_paused]

/-- The button phase never changes the pause flag. -/
theorem buttonPhase_is_paused (scan : HandScan) (ga : SimpleGame) :
    (buttonPhase scan ga).is_paused = ga.is_paused := by
  unfold buttonPhase
  split_ifs <;> rw [check_button_hover_is_paused]

/-- `check_button_hover` never changes the previous-frame fist flag (also
through the restart it may fire). -/
theorem check_button_hover_last_fist (g : SimpleGame) (x y : ℚ) :
    ((g.check_button_hover x y).1).last_fist_state = g.last_fist_state := by
  simp only [SimpleGame.check_button_hover, SimpleGame.reset_game]
  split_ifs <;> rfl

/-- One loop iteration over ANY hand — pointing or not — preserves the
pause flag and the previous-frame fist flag of the game. -/
theorem processHand_pause_fields (width height : ℚ) (acc : HandScan) (hd : Hand) :
    (processHand width height acc hd).game.is_paused = acc.game.is_paused ∧
    (processHand width height acc hd).game.last_fist_state =
      acc.game.last_fist_state := by
  constructor <;>
    (simp only [processHand]
     split_ifs <;>
       simp [check_button_hover_is_paused, check_button_hover_last_fist])

/-- The whole per-hand loop preserves the pause flag and the
previous-frame fist flag, whatever the hands do. -/
theorem scan_pause_fields (width height : ℚ) (hands : List Hand) (acc : HandScan) :
    (hands.foldl (processHand width height) acc).game.is_paused =
      acc.game.is_paused ∧
    (hands.foldl (processHand width height) acc).game.last_fist_state =
      acc.game.last_fist_state := by
  induction hands generalizing acc with
  | nil => exact ⟨rfl, rfl⟩
  | cons hd tl ih =>
    have h1 := processHand_pause_fields width height acc hd
    have hrec := ih (processHand width height acc hd)
    rw [List.foldl_cons]
    exact ⟨hrec.1.trans h1.1, hrec.2.trans h1.2⟩

/-- `next_level` never touches the projectile, targets, score, won flag,
pulling flag or restart button. -/
theorem next_level_frame (g : SimpleGame) :
    (g.next_level).bird = g.bird ∧
    (g.next_level).targets = g.targets ∧
    (g.next_level).score = g.score ∧
    (g.next_level).game_won = g.game_won ∧
    (g.next_level).pulling = g.pulling ∧
    (g.next_level).reset_button = g.reset_button := by
  simp only [SimpleGame.next_level, SimpleGame.start_transition]
  split_ifs <;> exact ⟨rfl, rfl, rfl, rfl, rfl, rfl⟩

/-- When the game is still paused after the pause edge-update, the whole
post-scan pipeline is exactly that pause update — or, when the un-gated
swipe window fires, that pause update followed by `next_level`.  In
particular the slingshot phase, the un-paused button phase and
`SimpleGame.update` (physics and collisions) never run. -/
theorem tick_paused_characterization (w : World) (hands : List Hand)
    (width height : ℚ) (scan : HandScan)
    (hscan : hands.foldl (processHand width height) (initScan w.game w.fist_history) = scan)
    (hg1paused : (scan.game.update_pause_state).is_paused = true) :
    (videoTick w hands width height).game = scan.game.update_pause_state ∨
    (videoTick w hands width height).game =
      (scan.game.update_pause_state).next_level := by
  simp only [videoTick]
  rw [hscan, hg1paused]
  simp only [Bool.not_true, Bool.false_eq_true, if_false]
  split_ifs with hc1 hc2 hc3
  · simp [next_level_is_paused, hg1paused] at hc2
  · exact Or.inr rfl
  · simp [hg1paused] at hc3
  · exact Or.inl rfl

/-- When the pause edge-update leaves the game un-paused, the tick ends
un-paused: the pause flag survives the slingshot, button, level-switch and
physics phases. -/
theorem tick_unpausing (w : World) (hands : List Hand)
    (width height : ℚ) (scan : HandScan)
    (hscan : hands.foldl (processHand width height) (initScan w.game w.fist_history) = scan)
    (hg1paused : (scan.game.update_pause_state).is_paused = false) :
    (videoTick w hands width height).game.is_paused = false := by
  have hB : (buttonPhase scan
      (slingshotPhase scan (scan.game.update_pause_state))).is_paused = false := by
    rw [buttonPhase_is_paused, slingshotPhase_is_paused, hg1paused]
  simp only [videoTick]
  rw [hscan, hg1paused]
  simp only [Bool.not_false, ite_true, if_pos rfl]
  split_ifs <;>
    first
      | (rw [update_is_paused, next_level_is_paused]; exact hB)
      | (rw [next_level_is_paused]; exact hB)
      | (rw [update_is_paused]; exact hB)
      | exact hB

/-- C4 amended: on every tick that is paused and stays paused through the
pause edge-detector, the pipeline performs no slingshot
start/update/release, no physics integration and no collision checks —
the final state is exactly the per-hand scan state after the pause
edge-update, except that the (equally un-gated) swipe window may still
fire `next_level`.  Gesture classification/stabilization and the pause
edge-detector still run, so a falling fist edge un-pauses the game in the
same tick.  The claim's "no restart-button progress updates" clause is
false — the per-hand loop drives the button for any pointing hand before
the pause gate (see the counterexample), and a fire there resets the
game — so the unchanged-state frame below additionally assumes no pointing
hand. -/
theorem paused_tick_skips_core_logic
    (g : SimpleGame) (fh : List Bool) (sh : List (Bool × (ℚ × ℚ)))
    (hands : List Hand) (width height : ℚ)
    (hp : g.is_paused = true) :
    (((hands.foldl (processHand width height) (initScan g fh)).game.fist_detected = true ∨
        g.last_fist_state = false) →
      (((videoTick ⟨g, fh, sh⟩ hands width height).game =
          ((hands.foldl (processHand width height) (initScan g fh)).game.update_pause_state) ∨
        (videoTick ⟨g, fh, sh⟩ hands width height).game =
          ((hands.foldl (processHand width height)
            (initScan g fh)).game.update_pause_state).next_level) ∧
       (videoTick ⟨g, fh, sh⟩ hands width height).game.is_paused = true)) ∧
    (((hands.foldl (processHand width height) (initScan g fh)).game.fist_detected = true ∨
        g.last_fist_state = false) →
      (∀ hd ∈ hands, (detect_pointing hd width height).1 = false) →
      ((videoTick ⟨g, fh, sh⟩ hands width height).game.bird = g.bird ∧
       (videoTick ⟨g, fh, sh⟩ hands width height).game.targets = g.targets ∧
       (videoTick ⟨g, fh, sh⟩ hands width height).game.score = g.score ∧
       (videoTick ⟨g, fh, sh⟩ hands width height).game.game_won = g.game_won ∧
       (videoTick ⟨g, fh, sh⟩ hands width height).game.pulling = g.pulling ∧
       (videoTick ⟨g, fh, sh⟩ hands width height).game.reset_button =
         g.reset_button)) ∧
    (((hands.foldl (processHand width height) (initScan g fh)).game.fist_detected = false ∧
        g.last_fist_state = true) →
      (videoTick ⟨g, fh, sh⟩ hands width height).game.is_paused = false) := by
  have hpf := scan_pause_fields width height hands (initScan g fh)
  have hFp : (hands.foldl (processHand width height) (initScan g fh)).game.is_paused =
      true := hpf.1.trans hp
  have hg1p : ((hands.foldl (processHand width height) (initScan g fh)).game.fist_detected
        = true ∨ g.last_fist_state = false) →
      (((hands.foldl (processHand width height)
        (initScan g fh)).game.update_pause_state)).is_paused = true := by
    intro hstay
    rcases hstay with hfist1 | hlast0
    · rw [update_pause_state_held _ hfist1]
      by_cases hl :
        (hands.foldl (processHand width height) (initScan g fh)).game.last_fist_state =
          true <;>
        simp [hl, hFp]
    · have hFlast :
          (hands.foldl (processHand width height) (initScan g fh)).game.last_fist_state =
          false := hpf.2.trans hlast0
      by_cases hf2 :
        (hands.foldl (processHand width height) (initScan g fh)).game.fist_detected = true
      · rw [update_pause_state_held _ hf2]
        simp [hFlast]
      · rw [update_pause_state_no_edge _ (by simpa using hf2) hFlast]
        exact hFp
  refine ⟨fun hstay => ?_, fun hstay hnp => ?_, fun hedge => ?_⟩
  · have hg1paused := hg1p hstay
    have hchar := tick_paused_characterization ⟨g, fh, sh⟩ hands width height
      (hands.foldl (processHand width height) (initScan g fh)) rfl hg1paused
    refine ⟨hchar, ?_⟩
    rcases hchar with h | h
    · rw [h]; exact hg1paused
    · rw [h, next_level_is_paused]; exact hg1paused
  · have hg1paused := hg1p hstay
    have hchar := tick_paused_characterization ⟨g, fh, sh⟩ hands width height
      (hands.foldl (processHand width height) (initScan g fh)) rfl hg1paused
    obtain ⟨f1, f2, f3, f4, f5, f6, f7, f8, f9, f10, f11, f12⟩ :=
      scan_no_pointing_frame width height hands (initScan g fh) hnp
    have hcore := update_pause_state_frame
      (hands.foldl (processHand width height) (initScan g fh)).game
    have hnl := next_level_frame
      ((hands.foldl (processHand width height) (initScan g fh)).game.update_pause_state)
    rcases hchar with h | h
    · exact ⟨by rw [h, hcore.1]; exact f1,
             by rw [h, hcore.2.1]; exact f2,
             by rw [h, hcore.2.2.1]; exact f3,
             by rw [h, hcore.2.2.2.1]; exact f4,
             by rw [h, hcore.2.2.2.2.1]; exact f5,
             by rw [h, hcore.2.2.2.2.2.2.2.2]; exact f9⟩
    · exact ⟨by rw [h, hnl.1, hcore.1]; exact f1,
             by rw [h, hnl.2.1, hcore.2.1]; exact f2,
             by rw [h, hnl.2.2.1, hcore.2.2.1]; exact f3,
             by rw [h, hnl.2.2.2.1, hcore.2.2.2.1]; exact f4,
             by rw [h, hnl.2.2.2.2.1, hcore.2.2.2.2.1]; exact f5,
             by rw [h, hnl.2.2.2.2.2, hcore.2.2.2.2.2.2.2.2]; exact f9⟩
  · have hFlast :
        (hands.foldl (processHand width height) (initScan g fh)).game.last_fist_state =
        true := hpf.2.trans hedge.2
    exact tick_unpausing ⟨g, fh, sh⟩ hands width height
      (hands.foldl (processHand width height) (initScan g fh)) rfl
      (update_pause_state_falling_edge _ hedge.1 hFlast)

/-- Witness for C4's amended theorem: a paused 640×480 game with no hands
in view keeps its score and stays paused over one tick. -/
theorem paused_tick_skips_core_logic_witness :
    ({ mkGame 640 480 with is_paused := true } : SimpleGame).is_paused = true ∧
    (videoTick ⟨{ mkGame 640 480 with is_paused := true }, [], []⟩ [] 640 480).game.score =
      ({ mkGame 640 480 with is_paused := true } : SimpleGame).score ∧
    (videoTick ⟨{ mkGame 640 480 with is_paused := true }, [], []⟩ [] 640 480).game.is_paused
      = true := by
  have h := paused_tick_skips_core_logic { mkGame 640 480 with is_paused := true }
    [] [] [] 640 480 rfl
  exact ⟨rfl, (h.2.1 (Or.inr rfl) (by intro hd hx; simp at hx)).2.2.1,
    (h.1 (Or.inr rfl)).2⟩

end AngryBalls
